import Mathlib

/-!
Verification development for the module `src/main/python/cos_op.py`.

The module has two halves: an AWS signature-version-4 presigned-URL builder
(`get_hash`, `create_signature_key`, `generate_link`) and two spreadsheet
report builders (`generate_excel`, `generate_excel_effectiveness`).

The embedding below models bytes as `List Nat` (each entry a byte value),
strings as Lean `String`, and the hash primitives (`hashlib.sha256`,
`hmac.new(..., hashlib.sha256)`) by an executable pure SHA-256 over byte
lists, with 32-bit words as `Nat` reduced modulo `2 ^ 32` at every step where
the concrete algorithm wraps.
-/

namespace CosOp

/-- Reduce a value to a 32-bit word, the wrap-around used by SHA-256 word
arithmetic. -/
def w32 (x : Nat) : Nat := x % 4294967296

/-- Right rotation of a 32-bit word by `n` places, written arithmetically:
the low `n` bits move to the top, the rest shift down. -/
def rotr (x n : Nat) : Nat := x % 2 ^ n * 2 ^ (32 - n) + x / 2 ^ n

/-- Right shift of a 32-bit word. -/
def shr (x n : Nat) : Nat := x / 2 ^ n

/-- UTF-8 encoding of one character as its byte values, the embedding of
Python `str.encode` applied character by character. -/
def utf8EncodeChar (c : Char) : List Nat :=
  let n := c.toNat
  if n < 128 then [n]
  else if n < 2048 then [192 + n / 64, 128 + n % 64]
  else if n < 65536 then [224 + n / 4096, 128 + n / 64 % 64, 128 + n % 64]
  else [240 + n / 262144, 128 + n / 4096 % 64, 128 + n / 64 % 64, 128 + n % 64]

/-- UTF-8 encoding of a string, the embedding of Python `s.encode("utf-8")`. -/
def utf8Encode (s : String) : List Nat := s.data.flatMap utf8EncodeChar

/-- The 64 SHA-256 round constants of FIPS 180-4, in decimal. -/
def sha256K : List Nat :=
  [1116352408, 1899447441, 3049323471, 3921009573, 961987163, 1508970993,
   2453635748, 2870763221, 3624381080, 310598401, 607225278, 1426881987,
   1925078388, 2162078206, 2614888103, 3248222580, 3835390401, 4022224774,
   264347078, 604807628, 770255983, 1249150122, 1555081692, 1996064986,
   2554220882, 2821834349, 2952996808, 3210313671, 3336571891, 3584528711,
   113926993, 338241895, 666307205, 773529912, 1294757372, 1396182291,
   1695183700, 1986661051, 2177026350, 2456956037, 2730485921, 2820302411,
   3259730800, 3345764771, 3516065817, 3600352804, 4094571909, 275423344,
   430227734, 506948616, 659060556, 883997877, 958139571, 1322822218,
   1537002063, 1747873779, 1955562222, 2024104815, 2227730452, 2361852424,
   2428436474, 2756734187, 3204031479, 3329325298]

/-- Eight 32-bit registers, used both for the running hash value and for the
working variables of the compression loop. -/
structure Regs8 where
  a : Nat
  b : Nat
  c : Nat
  d : Nat
  e : Nat
  f : Nat
  g : Nat
  h : Nat
  deriving Repr, DecidableEq

/-- The SHA-256 initial hash value of FIPS 180-4, in decimal. -/
def sha256Init : Regs8 :=
  ⟨1779033703, 3144134277, 1013904242, 2773480762,
   1359893119, 2600822924, 528734635, 1541459225⟩

/-- The small sigma-0 word function of SHA-256. -/
def ssig0 (x : Nat) : Nat := Nat.xor (Nat.xor (rotr x 7) (rotr x 18)) (shr x 3)

/-- The small sigma-1 word function of SHA-256. -/
def ssig1 (x : Nat) : Nat := Nat.xor (Nat.xor (rotr x 17) (rotr x 19)) (shr x 10)

/-- The big sigma-0 word function of SHA-256. -/
def bsig0 (x : Nat) : Nat := Nat.xor (Nat.xor (rotr x 2) (rotr x 13)) (rotr x 22)

/-- The big sigma-1 word function of SHA-256. -/
def bsig1 (x : Nat) : Nat := Nat.xor (Nat.xor (rotr x 6) (rotr x 11)) (rotr x 25)

/-- The choice word function of SHA-256; complement is xor against the
32-bit mask. -/
def chF (x y z : Nat) : Nat := Nat.xor (Nat.land x y) (Nat.land (Nat.xor x 4294967295) z)

/-- The majority word function of SHA-256. -/
def majF (x y z : Nat) : Nat := Nat.xor (Nat.xor (Nat.land x y) (Nat.land x z)) (Nat.land y z)

/-- The next word of the SHA-256 message schedule, from the words produced
so far. -/
def nextWord (w : List Nat) : Nat :=
  let i := w.length
  w32 (w.getD (i - 16) 0 + ssig0 (w.getD (i - 15) 0) +
       w.getD (i - 7) 0 + ssig1 (w.getD (i - 2) 0))

/-- Extend the message schedule by `k` further words. -/
def extendWords (w : List Nat) : Nat → List Nat
  | 0 => w
  | k + 1 => extendWords (w ++ [nextWord w]) k

/-- One SHA-256 round: consume a round constant and a schedule word,
rotating the eight working variables. -/
def sha256Round (r : Regs8) (kw : Nat × Nat) : Regs8 :=
  let t1 := w32 (r.h + bsig1 r.e + chF r.e r.f r.g + kw.1 + kw.2)
  let t2 := w32 (bsig0 r.a + majF r.a r.b r.c)
  ⟨w32 (t1 + t2), r.a, r.b, r.c, w32 (r.d + t1), r.e, r.f, r.g⟩

/-- Big-endian word assembly from four byte values. -/
def wordsOfBytes : List Nat → List Nat
  | b0 :: b1 :: b2 :: b3 :: rest =>
      (b0 * 16777216 + b1 * 65536 + b2 * 256 + b3) :: wordsOfBytes rest
  | _ => []

/-- Process one 64-byte block: build the 64-word schedule, run the 64 rounds
and add the result back into the running hash value. -/
def sha256Block (st : Regs8) (block : List Nat) : Regs8 :=
  let ws := extendWords (wordsOfBytes block) 48
  let r := (sha256K.zip ws).foldl sha256Round ⟨st.a, st.b, st.c, st.d, st.e, st.f, st.g, st.h⟩
  ⟨w32 (st.a + r.a), w32 (st.b + r.b), w32 (st.c + r.c), w32 (st.d + r.d),
   w32 (st.e + r.e), w32 (st.f + r.f), w32 (st.g + r.g), w32 (st.h + r.h)⟩

/-- Big-endian 8-byte rendering of the bit length for the SHA-256 padding
trailer. -/
def lenBytes64 (n : Nat) : List Nat :=
  [n / 72057594037927936 % 256, n / 281474976710656 % 256,
   n / 1099511627776 % 256, n / 4294967296 % 256,
   n / 16777216 % 256, n / 65536 % 256, n / 256 % 256, n % 256]

/-- SHA-256 padding: the byte 128, zero bytes up to 56 modulo 64, then the
64-bit big-endian bit length. -/
def padBytes (msg : List Nat) : List Nat :=
  msg ++ 128 :: List.replicate ((119 - msg.length % 64) % 64) 0 ++
    lenBytes64 (msg.length * 8)

/-- Split a byte list into 64-byte blocks. -/
def blocks64 (l : List Nat) : List (List Nat) :=
  if h : l = [] then [] else l.take 64 :: blocks64 (l.drop 64)
termination_by l.length
decreasing_by
  simp only [List.length_drop]
  have : l.length ≠ 0 := fun hl => h (List.eq_nil_of_length_eq_zero hl)
  omega

/-- Big-endian 4-byte rendering of one 32-bit word. -/
def wordBytes (x : Nat) : List Nat :=
  [x / 16777216 % 256, x / 65536 % 256, x / 256 % 256, x % 256]

/-- Serialize the final hash value to the 32 digest bytes. -/
def digestBytes (s : Regs8) : List Nat :=
  wordBytes s.a ++ wordBytes s.b ++ wordBytes s.c ++ wordBytes s.d ++
  wordBytes s.e ++ wordBytes s.f ++ wordBytes s.g ++ wordBytes s.h

/-- SHA-256 of a byte list, the embedding of `hashlib.sha256(...).digest()`. -/
def sha256 (msg : List Nat) : List Nat :=
  digestBytes ((blocks64 (padBytes msg)).foldl sha256Block sha256Init)

/-- Lowercase hexadecimal digit characters. -/
def hexDigitL (n : Nat) : Char :=
  if n < 10 then Char.ofNat (48 + n) else Char.ofNat (87 + n)

/-- Two lowercase hex characters of one byte. -/
def byteHex (b : Nat) : List Char := [hexDigitL (b / 16), hexDigitL (b % 16)]

/-- Lowercase hex string of a byte list, the embedding of `.hexdigest()`. -/
def hexDigest (bs : List Nat) : String := String.mk (bs.flatMap byteHex)

/-- HMAC-SHA256 over byte lists, the embedding of
`hmac.new(key, msg, hashlib.sha256).digest()` (FIPS 198-1, block size 64). -/
def hmacSha256 (key msg : List Nat) : List Nat :=
  let k0 := if 64 < key.length then sha256 key else key
  let kp := k0 ++ List.replicate (64 - k0.length) 0
  sha256 (kp.map (fun b => Nat.xor b 92) ++ sha256 (kp.map (fun b => Nat.xor b 54) ++ msg))

/-- Embedding of `get_hash(key, msg)`: HMAC-SHA256 of the UTF-8 encoding of
the message under the given key bytes. -/
def get_hash (key : List Nat) (msg : String) : List Nat :=
  hmacSha256 key (utf8Encode msg)

/-- Embedding of `create_signature_key(key, datestamp, region, service)`:
the AWS signature version 4 key derivation chain. -/
def create_signature_key (key datestamp region service : String) : List Nat :=
  let key_date := get_hash (utf8Encode ("AWS4" ++ key)) datestamp
  let key_region := get_hash key_date region
  let key_service := get_hash key_region service
  let key_signing := get_hash key_service "aws4_request"
  key_signing

/-! ## Embedding of `generate_link`

Python `requests.utils.quote` is `urllib.parse.quote`; with `safe="&="` a
character is left as itself when it is an ASCII letter or digit, one of the
always-safe marks `_ . - ~`, or one of the two safe characters `&` and `=`
passed at the call site; every other character is replaced by the uppercase
percent encoding of each of its UTF-8 bytes.

The source reads the current UTC time once and renders it with `strftime`
into the two strings `timestamp` and `datestamp`; the clock read is embedded
as an explicit `Clock` value holding exactly those two rendered strings. -/

/-- Characters the call `quote(s, safe="&=")` leaves unchanged. -/
def quoteSafe (c : Char) : Bool :=
  c.isAlphanum || c = '_' || c = '.' || c = '-' || c = '~' || c = '&' || c = '='

/-- Uppercase hexadecimal digit characters, as used by percent encoding. -/
def hexDigitU (n : Nat) : Char :=
  if n < 10 then Char.ofNat (48 + n) else Char.ofNat (55 + n)

/-- Percent encoding of one byte. -/
def percentByte (b : Nat) : List Char := ['%', hexDigitU (b / 16), hexDigitU (b % 16)]

/-- Encoding of one character under `quote(-, safe="&=")`. -/
def quoteChar (c : Char) : List Char :=
  if quoteSafe c then [c] else (utf8EncodeChar c).flatMap percentByte

/-- Character-list form of the quote encoding. -/
def quoteData (l : List Char) : List Char := l.flatMap quoteChar

/-- Embedding of `quote(s, safe="&=")`. -/
def quote (s : String) : String := String.mk (quoteData s.data)

/-- The credential dictionary fields `generate_link` reads. -/
structure Credentials where
  access_key_id : String
  secret_access_key : String
  host : String
  BUCKET : String
  deriving Repr, DecidableEq

/-- The one clock read of `generate_link`, already rendered by `strftime`:
`timestamp` in the form YYYYMMDDTHHMMSSZ and `datestamp` in the form
YYYYMMDD. -/
structure Clock where
  timestamp : String
  datestamp : String
  deriving Repr, DecidableEq

/-- The local `region` of `generate_link`, fixed to the empty string. -/
def region : String := ""

/-- The local `http_method` of `generate_link`. -/
def http_method : String := "GET"

/-- The local `standardized_querystring` of `generate_link`, the literal
concatenation of the five query parameters. -/
def standardized_querystring (c : Credentials) (clk : Clock) (expiration : Int) : String :=
  "X-Amz-Algorithm=AWS4-HMAC-SHA256" ++
  "&X-Amz-Credential=" ++ c.access_key_id ++ "/" ++ clk.datestamp ++ "/" ++ region ++
  "/s3/aws4_request" ++
  "&X-Amz-Date=" ++ clk.timestamp ++
  "&X-Amz-Expires=" ++ toString expiration ++
  "&X-Amz-SignedHeaders=host"

/-- The local `standardized_querystring_url_encoded` of `generate_link`. -/
def standardized_querystring_url_encoded (c : Credentials) (clk : Clock)
    (expiration : Int) : String :=
  quote (standardized_querystring c clk expiration)

/-- The local `standardized_resource` of `generate_link`. -/
def standardized_resource (c : Credentials) (filename : String) : String :=
  "/" ++ c.BUCKET ++ "/" ++ filename

/-- The local `payload_hash` of `generate_link`. -/
def payload_hash : String := "UNSIGNED-PAYLOAD"

/-- The local `standardized_headers` of `generate_link`. -/
def standardized_headers (c : Credentials) : String := "host:" ++ c.host

/-- The local `signed_headers` of `generate_link`. -/
def signed_headers : String := "host"

/-- The local `standardized_request` of `generate_link`. -/
def standardized_request (filename : String) (c : Credentials) (clk : Clock)
    (expiration : Int) : String :=
  http_method ++ "\n" ++
  standardized_resource c filename ++ "\n" ++
  standardized_querystring_url_encoded c clk expiration ++ "\n" ++
  standardized_headers c ++ "\n" ++
  "\n" ++
  signed_headers ++ "\n" ++
  payload_hash

/-- The local `hashing_algorithm` of `generate_link`. -/
def hashing_algorithm : String := "AWS4-HMAC-SHA256"

/-- The local `credential_scope` of `generate_link`. -/
def credential_scope (clk : Clock) : String :=
  clk.datestamp ++ "/" ++ region ++ "/" ++ "s3" ++ "/" ++ "aws4_request"

/-- The local `sts` (string to sign) of `generate_link`. -/
def sts (filename : String) (c : Credentials) (clk : Clock) (expiration : Int) : String :=
  hashing_algorithm ++ "\n" ++
  clk.timestamp ++ "\n" ++
  credential_scope clk ++ "\n" ++
  hexDigest (sha256 (utf8Encode (standardized_request filename c clk expiration)))

/-- The local `signature` of `generate_link`: lowercase hex of the HMAC of
the string to sign under the derived signing key. -/
def signature (filename : String) (c : Credentials) (clk : Clock) (expiration : Int) : String :=
  hexDigest (hmacSha256
    (create_signature_key c.secret_access_key clk.datestamp region "s3")
    (utf8Encode (sts filename c clk expiration)))

/-- Embedding of `generate_link(filename, credentials, expiration)`: the
returned `request_url`. -/
def generate_link (filename : String) (c : Credentials) (expiration : Int)
    (clk : Clock) : String :=
  "https://" ++ c.host ++ "/" ++
  c.BUCKET ++ "/" ++
  filename ++ "?" ++
  standardized_querystring_url_encoded c clk expiration ++
  "&X-Amz-Signature=" ++
  signature filename c clk expiration

/-! ## Embedding of the spreadsheet report builders

The xlsxwriter effects are modelled symbolically: a worksheet is the written
dataframe together with the ordered list of formatting calls made on it, and
the in-memory output buffer is the ordered list of sheets written before
`writer.save()`. The Python loop `for row in range(1, len(df) + 1, 2)` runs
over the odd numbers `2 * i + 1` for `i < (len(df) + 1) / 2`, and the whole
body of the loop (two `set_row` calls followed by the profile's `set_column`
calls) is emitted once per iteration. -/

/-- The three cell formats the builders create: the text-wrap header format
and the two band background colors BBCCE2 and DEE6EF. -/
inductive CellFormat where
  | header : CellFormat
  | band1 : CellFormat
  | band2 : CellFormat
  deriving Repr, DecidableEq

/-- One formatting call on a worksheet. -/
inductive FormatCall where
  /-- `worksheet.set_row(row, height, fmt)` with an explicit height. -/
  | setRowHeight (row : Nat) (height : Nat) (fmt : CellFormat) : FormatCall
  /-- `worksheet.set_row(row, cell_format=fmt)` with no height. -/
  | setRow (row : Nat) (fmt : CellFormat) : FormatCall
  /-- `worksheet.set_column(range, width)`. -/
  | setColumn (range : String) (width : Nat) : FormatCall
  deriving Repr, DecidableEq

/-- A dataframe, as the ordered rows of string cells; only the row count and
identity matter to the builders. -/
structure DataFrame where
  rows : List (List String)
  deriving Repr, DecidableEq

/-- The `set_column` calls in the loop body of `generate_excel`. -/
def standardColumns : List FormatCall :=
  [.setColumn "A:A" 5, .setColumn "B:B" 30, .setColumn "C:C" 30,
   .setColumn "D:D" 15, .setColumn "F:G" 35, .setColumn "H:AH" 20]

/-- The `set_column` calls in the loop body of `generate_excel_effectiveness`. -/
def effectivenessColumns : List FormatCall :=
  [.setColumn "A:A" 5, .setColumn "B:D" 30]

/-- The formatting calls of the banding loop over a dataframe with `n` rows:
one iteration per odd `row` below `n + 1`, each emitting
`set_row(row, data_format1)`, `set_row(row + 1, data_format2)` and the
profile's column calls. -/
def bandLoopCalls (cols : List FormatCall) (n : Nat) : List FormatCall :=
  (List.range ((n + 1) / 2)).flatMap fun i =>
    FormatCall.setRow (2 * i + 1) .band1 :: FormatCall.setRow (2 * i + 2) .band2 :: cols

/-- All formatting calls on one sheet: the header row call, then the banding
loop. -/
def sheetCalls (headerHeight : Nat) (cols : List FormatCall) (n : Nat) : List FormatCall :=
  FormatCall.setRowHeight 0 headerHeight .header :: bandLoopCalls cols n

/-- One written worksheet: its name, its dataframe and its formatting calls. -/
structure Sheet where
  name : String
  data : DataFrame
  calls : List FormatCall
  deriving Repr, DecidableEq

/-- The in-memory workbook accumulated in the output buffer. -/
abbrev Workbook : Type := List Sheet

/-- The sheets written by the zip loop of the builders: one per paired
dataframe and sheet name, surplus items of the longer list never reached. -/
def excelBuffer (headerHeight : Nat) (cols : List FormatCall)
    (dataframe_list : List DataFrame) (sheet_name_list : List String) : Workbook :=
  (dataframe_list.zip sheet_name_list).map fun p =>
    ⟨p.2, p.1, sheetCalls headerHeight cols p.1.rows.length⟩

/-- One `put_object` call observed on the storage client. -/
structure PutCall where
  bucket : String
  key : String
  body : Workbook
  deriving DecidableEq

/-- The observable outcome of a builder call: the value returned to the
caller and the `put_object` calls issued. The Python functions end without a
return statement, so the returned value is the constant `none`. -/
structure ExcelResult where
  ret : Option Workbook
  puts : List PutCall
  deriving DecidableEq

/-- Embedding of `generate_excel(dataframe_list, sheet_name_list, bucket,
filename, upload, cos_client)`. -/
def generate_excel (dataframe_list : List DataFrame) (sheet_name_list : List String)
    (bucket : String) (filename : String) (upload : Bool) : ExcelResult :=
  let output := excelBuffer 30 standardColumns dataframe_list sheet_name_list
  { ret := none
    puts := if upload then [⟨bucket, filename, output⟩] else [] }

/-- Embedding of `generate_excel_effectiveness(dataframe_list,
sheet_name_list, bucket, filename, upload, cos_client)`. -/
def generate_excel_effectiveness (dataframe_list : List DataFrame)
    (sheet_name_list : List String) (bucket : String) (filename : String)
    (upload : Bool) : ExcelResult :=
  let output := excelBuffer 20 effectivenessColumns dataframe_list sheet_name_list
  { ret := none
    puts := if upload then [⟨bucket, filename, output⟩] else [] }

/-! ## Predicates used to state the claims -/

/-- The character list `needle` occurs contiguously inside `hay`. -/
def occursIn (needle hay : List Char) : Prop :=
  ∃ p s, hay = p ++ needle ++ s

/-- The character list `l` starts with `pre`. -/
def leadsWith (pre l : List Char) : Prop :=
  ∃ t, l = pre ++ t

/-- The reserved characters of RFC 3986 (gen-delims and sub-delims), with
the space character, which the specification also names. -/
def reservedChars : List Char :=
  [':', '/', '?', '#', '[', ']', '@', '!', '$', '&', Char.ofNat 39,
   '(', ')', '*', '+', ',', ';', '=', ' ']

end CosOp

namespace CosOp

/-! ## Helper lemmas -/

/-- The character data of a constructed string. -/
theorem data_mk (l : List Char) : (String.mk l).data = l := rfl

/-- The serialized digest of any final state has exactly 32 bytes. -/
theorem digestBytes_length (s : Regs8) : (digestBytes s).length = 32 := by
  simp [digestBytes, wordBytes]

/-- SHA-256 always produces 32 digest bytes. -/
theorem sha256_length (msg : List Nat) : (sha256 msg).length = 32 :=
  digestBytes_length _

/-- HMAC-SHA256 always produces 32 digest bytes. -/
theorem hmacSha256_length (key msg : List Nat) : (hmacSha256 key msg).length = 32 := by
  unfold hmacSha256
  exact sha256_length _

/-- The quote encoding distributes over list append. -/
theorem quoteData_append (a b : List Char) : quoteData (a ++ b) = quoteData a ++ quoteData b := by
  simp [quoteData]

/-- The quote encoding distributes over string append. -/
theorem quote_append (a b : String) : quote (a ++ b) = quote a ++ quote b :=
  String.ext (by simp [quote, data_mk, quoteData_append])

/-- A safe character encodes to itself. -/
theorem quoteChar_safe {c : Char} (h : quoteSafe c = true) : quoteChar c = [c] := by
  simp [quoteChar, h]

/-- A list of safe characters is left unchanged by the quote encoding. -/
theorem quoteData_safe (l : List Char) (h : ∀ c ∈ l, quoteSafe c = true) : quoteData l = l := by
  induction l with
  | nil => rfl
  | cons c t ih =>
    have hc : quoteSafe c = true := h c (List.mem_cons_self ..)
    have ht := ih fun x hx => h x (List.mem_cons_of_mem _ hx)
    simp [quoteData] at ht
    simp [quoteData, quoteChar_safe hc, ht]

/-- Decimal digit characters are in the safe set. -/
theorem quoteSafe_of_isDigit (c : Char) (h : c.isDigit = true) : quoteSafe c = true := by
  simp [quoteSafe, Char.isAlphanum, h]

/-- The digit character of a value below ten is a decimal digit. -/
theorem digitChar_isDigit {m : Nat} (h : m < 10) : (Nat.digitChar m).isDigit = true := by
  interval_cases m <;> decide

/-- Every character produced by the decimal rendering loop is a digit or
comes from the accumulator. -/
theorem toDigitsCore_chars (fuel : Nat) : ∀ (n : Nat) (acc : List Char) (c : Char),
    c ∈ Nat.toDigitsCore 10 fuel n acc → c ∈ acc ∨ c.isDigit = true := by
  induction fuel with
  | zero => intro n acc c h; exact Or.inl h
  | succ fuel ih =>
    intro n acc c h
    simp only [Nat.toDigitsCore] at h
    by_cases h10 : n / 10 = 0
    · rw [if_pos h10] at h
      rcases List.mem_cons.mp h with h1 | h2
      · exact Or.inr (h1 ▸ digitChar_isDigit (Nat.mod_lt _ (by omega)))
      · exact Or.inl h2
    · rw [if_neg h10] at h
      rcases ih _ _ _ h with h1 | h2
      · rcases List.mem_cons.mp h1 with h3 | h4
        · exact Or.inr (h3 ▸ digitChar_isDigit (Nat.mod_lt _ (by omega)))
        · exact Or.inl h4
      · exact Or.inr h2

/-- Every character of the decimal rendering of a natural number is a digit. -/
theorem natRepr_chars (n : Nat) : ∀ c ∈ (Nat.repr n).data, c.isDigit = true := by
  intro c hc
  have : c ∈ Nat.toDigitsCore 10 (n + 1) n [] := hc
  rcases toDigitsCore_chars (n + 1) n [] c this with h1 | h2
  · cases h1
  · exact h2

/-- Every character of the decimal rendering of an integer is safe for the
quote encoding. -/
theorem int_toString_safe (e : Int) : ∀ c ∈ (toString e).data, quoteSafe c = true := by
  cases e with
  | ofNat m =>
    intro c hc
    exact quoteSafe_of_isDigit c (natRepr_chars m c hc)
  | negSucc m =>
    intro c hc
    have : c ∈ ("-" ++ Nat.repr (m + 1)).data := hc
    rw [String.data_append] at this
    rcases List.mem_append.mp this with h1 | h2
    · rcases List.mem_singleton.mp h1 with rfl
      decide
    · exact quoteSafe_of_isDigit c (natRepr_chars (m + 1) c h2)

/-- The decimal rendering of an integer passes through the quote encoding
unchanged. -/
theorem quoteData_int (e : Int) : quoteData (toString e).data = (toString e).data :=
  quoteData_safe _ (int_toString_safe e)

/-- The URL returned by `generate_link` decomposes after the scheme. -/
theorem generate_link_decomposition (f : String) (c : Credentials) (e : Int) (clk : Clock) :
    (generate_link f c e clk).data =
      ("https://").data ++
        (c.host ++ "/" ++ c.BUCKET ++ "/" ++ f ++ "?" ++
          standardized_querystring_url_encoded c clk e ++ "&X-Amz-Signature=" ++
          signature f c clk e).data := by
  simp [generate_link, List.append_assoc]

/-! ## C1: the signing key derivation chain -/

/-- C1: for all (UTF-8 encodable) secret, datestamp, region and service
strings, `create_signature_key` returns exactly the four-step chained
HMAC-SHA256 derivation, each step keyed by the previous digest, and the
result has 32 bytes. -/
theorem create_signature_key_spec (secret ds rg sv : String) :
    create_signature_key secret ds rg sv =
      hmacSha256
        (hmacSha256
          (hmacSha256
            (hmacSha256 (utf8Encode ("AWS4" ++ secret)) (utf8Encode ds))
            (utf8Encode rg))
          (utf8Encode sv))
        (utf8Encode "aws4_request")
    ∧ (create_signature_key secret ds rg sv).length = 32 := by
  constructor
  · rfl
  · unfold create_signature_key get_hash
    exact hmacSha256_length _ _

/-! ## C5: the canonical request has exactly the seven specified lines -/

/-- C5: the canonical request hashed into the string to sign is exactly the
seven-line newline-joined string: method, resource, encoded query string,
host header, empty line, signed header list, payload sentinel; and the
string to sign of `generate_link` embeds the lowercase hex SHA-256 digest of
exactly that string. -/
theorem canonical_request_seven_lines (f : String) (c : Credentials) (clk : Clock) (e : Int) :
    standardized_request f c clk e =
      String.intercalate "\n"
        ["GET",
         "/" ++ c.BUCKET ++ "/" ++ f,
         quote (standardized_querystring c clk e),
         "host:" ++ c.host,
         "",
         "host",
         "UNSIGNED-PAYLOAD"]
    ∧ sts f c clk e =
        "AWS4-HMAC-SHA256" ++ "\n" ++ clk.timestamp ++ "\n" ++
          credential_scope clk ++ "\n" ++
          hexDigest (sha256 (utf8Encode (standardized_request f c clk e))) := by
  constructor
  · apply String.ext
    simp [standardized_request, String.intercalate, String.intercalate.go,
      http_method, standardized_resource, standardized_querystring_url_encoded,
      standardized_headers, signed_headers, payload_hash, List.append_assoc]
  · rfl

/-! ## C8: determinism at a fixed clock value -/

/-- C8: two calls of `generate_link` with identical filename, credentials
and expiration, made at clock values rendering to the same timestamp and
datestamp strings, produce byte-identical URLs. -/
theorem generate_link_deterministic (f : String) (c : Credentials) (e : Int)
    (clk1 clk2 : Clock) (ht : clk1.timestamp = clk2.timestamp)
    (hd : clk1.datestamp = clk2.datestamp) :
    generate_link f c e clk1 = generate_link f c e clk2 := by
  cases clk1
  cases clk2
  cases ht
  cases hd
  rfl

/-- Witness for C8 at a concrete input. -/
theorem generate_link_deterministic_witness :
    generate_link "report.xlsx" ⟨"AKID", "SECRET", "s3.example.com", "bkt"⟩ 3600
        ⟨"20260101T000000Z", "20260101"⟩ =
      generate_link "report.xlsx" ⟨"AKID", "SECRET", "s3.example.com", "bkt"⟩ 3600
        ⟨"20260101T000000Z", "20260101"⟩ :=
  generate_link_deterministic "report.xlsx" ⟨"AKID", "SECRET", "s3.example.com", "bkt"⟩ 3600
    ⟨"20260101T000000Z", "20260101"⟩ ⟨"20260101T000000Z", "20260101"⟩ rfl rfl

/-! ## Membership of row-format calls in the banding loop -/

/-- The column calls of both profiles contain no `set_row` call. -/
theorem setRow_not_mem_columns (r : Nat) (fmt : CellFormat) :
    FormatCall.setRow r fmt ∉ standardColumns ∧
      FormatCall.setRow r fmt ∉ effectivenessColumns := by
  constructor <;> simp [standardColumns, effectivenessColumns]

/-- Characterization of the `set_row` calls emitted by the banding loop:
iteration `i` of the loop sets row `2 * i + 1` to the first band color and
row `2 * i + 2` to the second. -/
theorem setRow_mem_bandLoop (cols : List FormatCall)
    (hcols : ∀ r fmt, FormatCall.setRow r fmt ∉ cols) (n r : Nat) (fmt : CellFormat) :
    FormatCall.setRow r fmt ∈ bandLoopCalls cols n ↔
      ∃ i, i < (n + 1) / 2 ∧
        ((r = 2 * i + 1 ∧ fmt = .band1) ∨ (r = 2 * i + 2 ∧ fmt = .band2)) := by
  simp only [bandLoopCalls, List.mem_flatMap, List.mem_range, List.mem_cons,
    FormatCall.setRow.injEq]
  constructor
  · rintro ⟨i, hi, h⟩
    rcases h with ⟨hr, hf⟩ | ⟨hr, hf⟩ | h
    · exact ⟨i, hi, Or.inl ⟨hr, hf⟩⟩
    · exact ⟨i, hi, Or.inr ⟨hr, hf⟩⟩
    · exact absurd h (hcols r fmt)
  · rintro ⟨i, hi, h⟩
    rcases h with ⟨rfl, rfl⟩ | ⟨rfl, rfl⟩
    · exact ⟨i, hi, Or.inl ⟨rfl, rfl⟩⟩
    · exact ⟨i, hi, Or.inr (Or.inl ⟨rfl, rfl⟩)⟩

/-- Membership of a `set_row` call in the full call list of one sheet. -/
theorem setRow_mem_sheetCalls (hh : Nat) (cols : List FormatCall)
    (hcols : ∀ r fmt, FormatCall.setRow r fmt ∉ cols) (n r : Nat) (fmt : CellFormat) :
    FormatCall.setRow r fmt ∈ sheetCalls hh cols n ↔
      ∃ i, i < (n + 1) / 2 ∧
        ((r = 2 * i + 1 ∧ fmt = .band1) ∨ (r = 2 * i + 2 ∧ fmt = .band2)) := by
  simp only [sheetCalls, List.mem_cons, setRow_mem_bandLoop cols hcols n r fmt]
  simp

/-! ## C2: the row banding pattern (corrected: single-row alternation) -/

/-- C2 counterexample: for a dataset with 5 data rows, the claim says rows
1 and 2 both get the first color; the code instead sets row 2 with the
second band color and never with the first. -/
theorem banding_pairs_counterexample :
    FormatCall.setRow 2 CellFormat.band1 ∉ sheetCalls 30 standardColumns 5 ∧
      FormatCall.setRow 2 CellFormat.band2 ∈ sheetCalls 30 standardColumns 5 := by
  decide

/-- C2 amended: both report builders alternate the two band colors row by
row: every data row with odd index is set to the first color and every data
row with even index to the second, in both style profiles. -/
theorem banding_single_row_alternation (n r : Nat) (fmt : CellFormat)
    (h1 : 1 ≤ r) (h2 : r ≤ n) :
    (FormatCall.setRow r fmt ∈ sheetCalls 30 standardColumns n ↔
        fmt = if r % 2 = 1 then CellFormat.band1 else CellFormat.band2)
    ∧ (FormatCall.setRow r fmt ∈ sheetCalls 20 effectivenessColumns n ↔
        fmt = if r % 2 = 1 then CellFormat.band1 else CellFormat.band2) := by
  have hstd := setRow_mem_sheetCalls 30 standardColumns
    (fun a b => (setRow_not_mem_columns a b).1) n r fmt
  have heff := setRow_mem_sheetCalls 20 effectivenessColumns
    (fun a b => (setRow_not_mem_columns a b).2) n r fmt
  have key : (∃ i, i < (n + 1) / 2 ∧
      ((r = 2 * i + 1 ∧ fmt = .band1) ∨ (r = 2 * i + 2 ∧ fmt = .band2))) ↔
      fmt = if r % 2 = 1 then CellFormat.band1 else CellFormat.band2 := by
    constructor
    · rintro ⟨i, hi, h⟩
      rcases h with ⟨rfl, rfl⟩ | ⟨rfl, rfl⟩
      · have hm : (2 * i + 1) % 2 = 1 := by omega
        simp [hm]
      · have hm : (2 * i + 2) % 2 = 0 := by omega
        simp [hm]
    · intro hf
      by_cases hodd : r % 2 = 1
      · refine ⟨(r - 1) / 2, by omega, Or.inl ⟨by omega, ?_⟩⟩
        simpa [hodd] using hf
      · refine ⟨r / 2 - 1, by omega, Or.inr ⟨by omega, ?_⟩⟩
        simpa [hodd] using hf
  exact ⟨hstd.trans key, heff.trans key⟩

/-- Witness for the amended C2 at 5 data rows and row 2. -/
theorem banding_single_row_alternation_witness :
    (FormatCall.setRow 2 CellFormat.band2 ∈ sheetCalls 30 standardColumns 5 ↔
        CellFormat.band2 = if 2 % 2 = 1 then CellFormat.band1 else CellFormat.band2)
    ∧ (FormatCall.setRow 2 CellFormat.band2 ∈ sheetCalls 20 effectivenessColumns 5 ↔
        CellFormat.band2 = if 2 % 2 = 1 then CellFormat.band1 else CellFormat.band2) :=
  banding_single_row_alternation 5 2 CellFormat.band2 (by decide) (by decide)

/-! ## C9: the banding loop styles one row past the data for odd row counts -/

/-- C9: for a dataframe with an odd number of rows `n`, the last loop
iteration also sets row `n + 1`, one past the last data row, with the second
band color, in both builders. -/
theorem banding_overruns_last_row (n : Nat) (h : n % 2 = 1) :
    FormatCall.setRow (n + 1) CellFormat.band2 ∈ sheetCalls 30 standardColumns n
    ∧ FormatCall.setRow (n + 1) CellFormat.band2 ∈ sheetCalls 20 effectivenessColumns n := by
  constructor
  · rw [setRow_mem_sheetCalls 30 standardColumns
      (fun a b => (setRow_not_mem_columns a b).1)]
    exact ⟨(n - 1) / 2, by omega, Or.inr ⟨by omega, rfl⟩⟩
  · rw [setRow_mem_sheetCalls 20 effectivenessColumns
      (fun a b => (setRow_not_mem_columns a b).2)]
    exact ⟨(n - 1) / 2, by omega, Or.inr ⟨by omega, rfl⟩⟩

/-- Witness for C9 at 5 data rows: row 6 is styled. -/
theorem banding_overruns_last_row_witness :
    FormatCall.setRow 6 CellFormat.band2 ∈ sheetCalls 30 standardColumns 5
    ∧ FormatCall.setRow 6 CellFormat.band2 ∈ sheetCalls 20 effectivenessColumns 5 :=
  banding_overruns_last_row 5 (by decide)

/-! ## C4: the builders do not return the buffer (corrected) -/

/-- C4 counterexample: at a concrete one-sheet input both builders return
`None` to the caller, not the spreadsheet buffer. -/
theorem excel_returns_none_counterexample :
    (generate_excel [DataFrame.mk [["x"]]] ["sheet"] "bucket" "file.xlsx" true).ret = none
    ∧ (generate_excel_effectiveness [DataFrame.mk [["x"]]] ["sheet"] "bucket" "file.xlsx"
        true).ret = none :=
  ⟨rfl, rfl⟩

/-- C4 amended: for every list of dataframes with its list of sheet names,
both builders assemble the complete workbook buffer in memory and, when
upload is requested, hand exactly that buffer to the storage client under
the given bucket and key; the value returned to the caller is `None`, and
without upload the storage client is never invoked. -/
theorem excel_buffer_built_not_returned (dfs : List DataFrame) (names : List String)
    (b f : String) :
    (generate_excel dfs names b f true).ret = none
    ∧ (generate_excel dfs names b f true).puts =
        [⟨b, f, excelBuffer 30 standardColumns dfs names⟩]
    ∧ (generate_excel dfs names b f false).puts = []
    ∧ (generate_excel_effectiveness dfs names b f true).ret = none
    ∧ (generate_excel_effectiveness dfs names b f true).puts =
        [⟨b, f, excelBuffer 20 effectivenessColumns dfs names⟩]
    ∧ (generate_excel_effectiveness dfs names b f false).puts = [] :=
  ⟨rfl, rfl, rfl, rfl, rfl, rfl⟩

/-! ## C10: mismatched list lengths truncate silently -/

/-- C10: when the dataframe list and the sheet name list have different
lengths, `generate_excel` still completes (returning `None`) and the buffer
holds exactly `min` of the two lengths many sheets, the surplus items of the
longer list ignored; the same holds for the effectiveness builder. -/
theorem generate_excel_zip_truncation (dfs : List DataFrame) (names : List String)
    (b f : String) (u : Bool) (h : dfs.length ≠ names.length) :
    (generate_excel dfs names b f u).ret = none
    ∧ (excelBuffer 30 standardColumns dfs names).length = min dfs.length names.length
    ∧ (excelBuffer 20 effectivenessColumns dfs names).length = min dfs.length names.length := by
  refine ⟨rfl, ?_, ?_⟩ <;> simp [excelBuffer]

/-- Witness for C10: two dataframes, one sheet name, one sheet written. -/
theorem generate_excel_zip_truncation_witness :
    (generate_excel [DataFrame.mk [["x"]], DataFrame.mk []] ["only"] "b" "f" false).ret = none
    ∧ (excelBuffer 30 standardColumns [DataFrame.mk [["x"]], DataFrame.mk []] ["only"]).length =
        min [DataFrame.mk [["x"]], DataFrame.mk []].length ["only"].length
    ∧ (excelBuffer 20 effectivenessColumns [DataFrame.mk [["x"]], DataFrame.mk []]
        ["only"]).length =
        min [DataFrame.mk [["x"]], DataFrame.mk []].length ["only"].length :=
  generate_excel_zip_truncation [DataFrame.mk [["x"]], DataFrame.mk []] ["only"] "b" "f" false
    (by decide)

/-! ## C7: the encoding variant keeps ampersand and equals, encodes the rest -/

/-- C7: the percent encoding applied to the standardized query string leaves
the ampersand and equals characters unchanged and turns every other reserved
character (slash and space included) into a percent escape of its byte. -/
theorem quote_reserved_encoding (c : Char) (hc : c ∈ reservedChars) :
    quoteChar c =
      if c = '&' ∨ c = '=' then [c]
      else ['%', hexDigitU (c.toNat / 16), hexDigitU (c.toNat % 16)] := by
  fin_cases hc <;> decide

/-- Witness for C7 at the slash character, which this encoding variant must
escape. -/
theorem quote_reserved_encoding_witness :
    quoteChar '/' =
      if '/' = '&' ∨ '/' = '=' then ['/']
      else ['%', hexDigitU ('/'.toNat / 16), hexDigitU ('/'.toNat % 16)] :=
  quote_reserved_encoding '/' (by decide)

/-! ## C6: fixed parameter order and the literal expiration value -/

/-- C6: the standardized query string is exactly the five parameters joined
by ampersands in the fixed order algorithm, credential, date, expires,
signed-headers, for every input; and the output URL contains the substring
with the expiration exactly as the decimal rendering of the integer passed
in. -/
theorem querystring_fixed_order (f : String) (c : Credentials) (clk : Clock) (e : Int) :
    standardized_querystring c clk e =
      "X-Amz-Algorithm=AWS4-HMAC-SHA256" ++ "&" ++
      ("X-Amz-Credential=" ++ c.access_key_id ++ "/" ++ clk.datestamp ++ "/" ++ region ++
        "/s3/aws4_request") ++ "&" ++
      ("X-Amz-Date=" ++ clk.timestamp) ++ "&" ++
      ("X-Amz-Expires=" ++ toString e) ++ "&" ++
      "X-Amz-SignedHeaders=host"
    ∧ occursIn ("&X-Amz-Expires=" ++ toString e ++ "&").data
        (generate_link f c e clk).data := by
  constructor
  · have hB : ("&X-Amz-Credential=" : String).data =
        '&' :: ("X-Amz-Credential=" : String).data := rfl
    have hD : ("&X-Amz-Date=" : String).data = '&' :: ("X-Amz-Date=" : String).data := rfl
    have hE : ("&X-Amz-Expires=" : String).data =
        '&' :: ("X-Amz-Expires=" : String).data := rfl
    have hF : ("&X-Amz-SignedHeaders=host" : String).data =
        '&' :: ("X-Amz-SignedHeaders=host" : String).data := rfl
    have hamp : ("&" : String).data = ['&'] := rfl
    apply String.ext
    simp [standardized_querystring, hB, hD, hE, hF, hamp, List.append_assoc]
  · have hqInt : quote (toString e) = toString e :=
      String.ext (by rw [quote, data_mk]; exact quoteData_int e)
    have hq1 : quote "&X-Amz-Expires=" = "&X-Amz-Expires=" := by decide
    have hq2 : quote "&X-Amz-SignedHeaders=host" =
        "&" ++ "X-Amz-SignedHeaders=host" := by decide
    have hmerge : ∀ y : String,
        "&" ++ ("X-Amz-SignedHeaders=host&X-Amz-Signature=" ++ y) =
          "&X-Amz-SignedHeaders=host&X-Amz-Signature=" ++ y := fun y => by
      rw [← String.append_assoc]
      exact congrArg (fun z => z ++ y) (by decide)
    have hsplit : generate_link f c e clk =
        (("https://" ++ c.host ++ "/" ++ c.BUCKET ++ "/" ++ f ++ "?") ++
          quote ("X-Amz-Algorithm=AWS4-HMAC-SHA256" ++ "&X-Amz-Credential=" ++
            c.access_key_id ++ "/" ++ clk.datestamp ++ "/" ++ region ++ "/s3/aws4_request" ++
            "&X-Amz-Date=" ++ clk.timestamp)) ++
        ("&X-Amz-Expires=" ++ toString e ++ "&") ++
        ("X-Amz-SignedHeaders=host" ++ "&X-Amz-Signature=" ++ signature f c clk e) := by
      simp [generate_link, standardized_querystring_url_encoded, standardized_querystring,
        quote_append, hqInt, hq1, hq2, hmerge, String.append_assoc]
    exact ⟨(("https://" ++ c.host ++ "/" ++ c.BUCKET ++ "/" ++ f ++ "?") ++
        quote ("X-Amz-Algorithm=AWS4-HMAC-SHA256" ++ "&X-Amz-Credential=" ++
          c.access_key_id ++ "/" ++ clk.datestamp ++ "/" ++ region ++ "/s3/aws4_request" ++
          "&X-Amz-Date=" ++ clk.timestamp)).data,
      ("X-Amz-SignedHeaders=host" ++ "&X-Amz-Signature=" ++ signature f c clk e).data,
      by rw [hsplit]; simp [List.append_assoc]⟩

/-! ## C3: generate_link validates nothing (corrected) -/

/-- C3 counterexample: with every credential field empty and a negative
expiration, `generate_link` does not fail; it returns a URL string starting
with the scheme. -/
theorem generate_link_no_failure_counterexample :
    leadsWith ("https://").data
      (generate_link "file.txt" ⟨"", "", "", ""⟩ (-1)
        ⟨"20260101T000000Z", "20260101"⟩).data :=
  ⟨_, generate_link_decomposition "file.txt" ⟨"", "", "", ""⟩ (-1)
    ⟨"20260101T000000Z", "20260101"⟩⟩

/-- C3 amended: `generate_link` performs no validation at all: even when
every required credential field is empty and the expiration is non-positive
it does not fail, returning a non-empty URL string that starts with the
scheme and embeds the given values. -/
theorem generate_link_no_validation (f : String) (c : Credentials) (e : Int) (clk : Clock)
    (hak : c.access_key_id = "") (hsk : c.secret_access_key = "") (hh : c.host = "")
    (hb : c.BUCKET = "") (he : e ≤ 0) :
    leadsWith ("https://").data (generate_link f c e clk).data
    ∧ (generate_link f c e clk).data ≠ [] := by
  have hdec := generate_link_decomposition f c e clk
  refine ⟨⟨_, hdec⟩, fun hc => ?_⟩
  rw [hdec] at hc
  exact absurd (List.append_eq_nil.mp hc).1 (by decide)

/-- Witness for the amended C3 at a concrete degenerate input. -/
theorem generate_link_no_validation_witness :
    leadsWith ("https://").data
      (generate_link "f.txt" ⟨"", "", "", ""⟩ 0 ⟨"t", "d"⟩).data
    ∧ (generate_link "f.txt" ⟨"", "", "", ""⟩ 0 ⟨"t", "d"⟩).data ≠ [] :=
  generate_link_no_validation "f.txt" ⟨"", "", "", ""⟩ 0 ⟨"t", "d"⟩ rfl rfl rfl rfl
    (by decide)

end CosOp

